import Mathlib

/-!
Verification of `sto-cargo-search` (`src/sto_cargo_search/cli.py`).

This file gives a shallow embedding of the parts of `cli.py` that the
specification's claims are about: the JSON value/record model, Python
truthiness and equality as they affect the de-duplication identity, the
`detect_format` classifier, the search-expression preprocessing and the
pyparsing grammar (`parse_search_expression`), expression evaluation
(`SearchTerm` / `BinaryOperation` / `NotOperation`), the de-duplication
loop of `main`, and the `--file` branch of `main` with its error paths.

All definitions are translated from the Python source; comments cite the
relevant lines of `cli.py`.
-/

namespace StoCargo

/-- A JSON-decoded primitive value, as produced by `json.load` on a cargo
export file: `null`, a string, an integer, or a boolean.  (The cargo files
hold flat objects of primitive values; floats do not occur in any claim.) -/
inductive JValue where
  | jnull
  | jstr (s : String)
  | jnum (n : Int)
  | jbool (b : Bool)
deriving DecidableEq, Repr

/-- A record: one JSON object, a mapping from field names to values.
Python `dict` preserves insertion order; keys are unique in practice. -/
abbrev Record := List (String × JValue)

/-- Python truthiness `bool(v)` of a JSON-decoded value: `None`, `""`, `0`
and `False` are falsy, everything else truthy. -/
def JValue.truthy : JValue → Bool
  | .jnull => false
  | .jstr s => s ≠ ""
  | .jnum n => n ≠ 0
  | .jbool b => b

/-- Python `obj.get(k)`: the value of the first binding of `k`, where both a
missing key and an explicit JSON `null` value give Python `None` (`jnull`). -/
def pyGet (obj : Record) (k : String) : JValue :=
  match obj.find? (fun kv => kv.1 == k) with
  | some kv => kv.2
  | none => .jnull

/-- Python `a or b` on values: `a` if `a` is truthy, else `b`. -/
def pyOr (a b : JValue) : JValue := if a.truthy then a else b

/-- cli.py:364/383: `obj.get('name') or obj.get('doff_specialization') or
obj.get('_pageName')` — the de-duplication identity of a record. -/
def identifier (obj : Record) : JValue :=
  pyOr (pyGet obj "name") (pyOr (pyGet obj "doff_specialization") (pyGet obj "_pageName"))

/-- Python `==` between two values of the JSON primitive types.  Note
Python's numeric tower: `True == 1` and `False == 0`; values of distinct
non-numeric types never compare equal. -/
def pyEqVal : JValue → JValue → Bool
  | .jnull, .jnull => true
  | .jstr a, .jstr b => a == b
  | .jnum a, .jnum b => a == b
  | .jbool a, .jbool b => a == b
  | .jbool a, .jnum b => (if a then (1 : Int) else 0) == b
  | .jnum a, .jbool b => a == (if b then (1 : Int) else 0)
  | _, _ => false

/-- Python `k in obj` for a dict: key presence (regardless of the value,
which may be `null`). -/
def hasKey (obj : Record) (k : String) : Bool := obj.any (fun kv => kv.1 == k)

/-- `p` is a prefix of `s`, character by character. -/
def charsPrefix : List Char → List Char → Bool
  | [], _ => true
  | _ :: _, [] => false
  | a :: as, b :: bs => a == b && charsPrefix as bs

/-- Python `str.startswith` — a case-sensitive prefix test. -/
def strStartsWith (s p : String) : Bool := charsPrefix p.data s.data

/-- cli.py:207–216 `detect_format`: structural classification of a record
into one of the four categories or `"unknown"`, first rule wins. -/
def detect_format (obj : Record) : String :=
  if hasKey obj "doff_specialization" then "doff"
  else if hasKey obj "basic" || hasKey obj "detailed" || hasKey obj "obtained" then "starship_trait"
  else if hasKey obj "chartype" && hasKey obj "environment" then "personal_trait"
  else if obj.any (fun kv =>
      strStartsWith kv.1 "head" || strStartsWith kv.1 "text" || strStartsWith kv.1 "subhead") then "equipment"
  else "unknown"

/-- Python `str(v)` on a JSON-decoded value. -/
def pyStr : JValue → String
  | .jnull => "None"
  | .jstr s => s
  | .jnum n => toString n
  | .jbool b => if b then "True" else "False"

/-- Python `str.lower` (ASCII; the cargo data and search terms are ASCII). -/
def strLower (s : String) : String := String.mk (s.data.map Char.toLower)

/-- `needle` occurs as a contiguous run inside the character list. -/
def charsContains (needle : List Char) : List Char → Bool
  | [] => charsPrefix needle []
  | c :: rest => charsPrefix needle (c :: rest) || charsContains needle rest

/-- Python `needle in hay` for strings: substring containment (the empty
string is contained in everything). -/
def strContains (hay needle : String) : Bool := charsContains needle.data hay.data

mutual
/-- The compiled search-expression AST (cli.py:139–168).  `binop` keeps the
full operand list, as `BinaryOperation.__init__` stores `tokens[0][0::2]`. -/
inductive SExpr where
  | term (t : String)
  | binop (op : String) (operands : SList)
  | notop (e : SExpr)

/-- Operand list of a `binop` node (a separate inductive so that evaluation
is mutual structural recursion). -/
inductive SList where
  | nil
  | cons (e : SExpr) (rest : SList)
end

/-- `SearchTerm.evaluate`'s per-value test (cli.py:146): a `None` value never
matches; otherwise a case-insensitive substring test of the term against the
stringified value. -/
def termMatchesValue (t : String) (v : JValue) : Bool :=
  match v with
  | .jnull => false
  | v => strContains (strLower (pyStr v)) (strLower t)

mutual
/-- Evaluation of a compiled expression on a record (cli.py:144–168):
`SearchTerm.evaluate` scans all field values; `BinaryOperation.evaluate`
is `all`/`any` over the operands (any other operator falls through to a
falsy `None`, modelled as `false`); `NotOperation.evaluate` negates. -/
def SExpr.evaluate : SExpr → Record → Bool
  | .term t, obj => obj.any (fun kv => termMatchesValue t kv.2)
  | .binop op ops, obj =>
      if op = "and" then SList.evalAll ops obj
      else if op = "or" then SList.evalAny ops obj
      else false

  | .notop e, obj => !(SExpr.evaluate e obj)

/-- Python `all(op.evaluate(obj) for op in self.operands)`. -/
def SList.evalAll : SList → Record → Bool
  | .nil, _ => true
  | .cons e es, obj => SExpr.evaluate e obj && SList.evalAll es obj

/-- Python `any(op.evaluate(obj) for op in self.operands)`. -/
def SList.evalAny : SList → Record → Bool
  | .nil, _ => false
  | .cons e es, obj => SExpr.evaluate e obj || SList.evalAny es obj
end

/-- cli.py:175 `expr.replace(',', ' OR')`: every comma becomes space-O-R,
with NO trailing space after the `R`. -/
def replaceComma : List Char → List Char
  | [] => []
  | c :: rest => if c == ',' then ' ' :: 'O' :: 'R' :: replaceComma rest else c :: replaceComma rest

/-- A regex word character (`\w` over the ASCII inputs at hand). -/
def isWordChar (c : Char) : Bool := c.isAlphanum || c == '_'

/-- `p` is a case-insensitive prefix of `s`. -/
def ciPrefix : List Char → List Char → Bool
  | [], _ => true
  | _ :: _, [] => false
  | a :: as, b :: bs => a.toLower == b.toLower && ciPrefix as bs

/-- After dropping `n` characters there is a word boundary: end of input or
a non-word character. -/
def boundaryAfter (n : Nat) (s : List Char) : Bool :=
  match s.drop n with
  | [] => true
  | c :: _ => !isWordChar c

/-- Scanner for `re.sub(r'\bW\b', repl, s, flags=re.IGNORECASE)` where `W`
is a word of word characters: `prevWord` records whether the character just
before the current position is a word character (so `\b` holds iff not).
After a replacement, scanning resumes past the matched word, whose last
character is a word character.  The fuel is decremented once per step and
`fuel = length + 1` always suffices since each step consumes a character. -/
def subWordGo (w repl : List Char) : Nat → Bool → List Char → List Char
  | 0, _, s => s
  | _ + 1, _, [] => []
  | fuel + 1, prevWord, c :: rest =>
      if !prevWord && ciPrefix w (c :: rest) && boundaryAfter w.length (c :: rest) then
        repl ++ subWordGo w repl fuel true ((c :: rest).drop w.length)
      else
        c :: subWordGo w repl fuel (isWordChar c) rest

/-- `re.sub(r'\bW\b', repl, s, flags=re.IGNORECASE)` (cli.py:176–178). -/
def subWordCI (w repl s : List Char) : List Char :=
  subWordGo w repl (s.length + 1) false s

/-- pyparsing's default whitespace skipping (space, tab, newline). -/
def skipWs : List Char → List Char
  | [] => []
  | c :: rest => if c == ' ' || c == '\t' || c == '\n' then skipWs rest else c :: rest

/-- A character of `Word(alphanums + '-_')`. -/
def isTermChar (c : Char) : Bool := c.isAlphanum || c == '-' || c == '_'

/-- Body of `QuotedString('"')` after the opening quote: everything up to
the closing quote; fails at end of input or a newline (single-line quoted
strings). -/
def scanQuoted : List Char → Option (List Char × List Char)
  | [] => none
  | '"' :: rest => some ([], rest)
  | '\n' :: _ => none
  | c :: rest =>
      match scanQuoted rest with
      | some (content, rem) => some (c :: content, rem)
      | none => none

/-- Maximal run of `Word(alphanums + '-_')` characters. -/
def scanWord : List Char → (List Char × List Char)
  | [] => ([], [])
  | c :: rest =>
      if isTermChar c then
        let (w, r) := scanWord rest
        (c :: w, r)
      else ([], c :: rest)

/-- The base operand `term = QuotedString('"') | Word(alphanums + '-_')`
(cli.py:179), applied after whitespace has been skipped; produces a
`SearchTerm` node. -/
def parseTermAfterWs : List Char → Option (SExpr × List Char)
  | '"' :: rest =>
      match scanQuoted rest with
      | some (content, rem) => some (.term (String.mk content), rem)
      | none => none
  | s =>
      match scanWord s with
      | ([], _) => none
      | (w, rest) => some (.term (String.mk w), rest)

/-- pyparsing `Literal`: skip whitespace, then match the exact characters
(no word-boundary requirement — `Literal('and')` matches inside `andrare`). -/
def parseLit (lit : List Char) (s : List Char) : Option (List Char) :=
  let s2 := skipWs s
  if charsPrefix lit s2 then some (s2.drop lit.length) else none

def toSList : List SExpr → SList
  | [] => .nil
  | e :: es => .cons e (toSList es)

/-- Close a binary level: a single collected operand stays bare (pyparsing
only wraps when at least one operator matched); two or more become a
`BinaryOperation` node with the given operator. -/
def finishBin (op : String) (acc : List SExpr) (s : List Char) : Option (SExpr × List Char) :=
  match acc with
  | [] => none
  | [e] => some (e, s)
  | es => some (.binop op (toSList es), s)

/-- Precedence levels of the `infixNotation` grammar (cli.py:181–186):
`atomE` is the base operand or a parenthesized full expression, `notE` the
right-associative unary `not` level, `andE`/`andCont` the left-associative
`and` level (operand then a greedy operator/operand loop), `orE`/`orCont`
the `or` level.  `acc` collects the operand list of the binary levels. -/
inductive Lvl where
  | orE | orCont | andE | andCont | notE | atomE

/-- The `infixNotation` parser, scannerless like pyparsing (each element
skips its own leading whitespace), with PEG-style ordered choice: a failed
`not`/`and`/`or` continuation backtracks to the shorter parse.  Structural
recursion on a fuel that is ample for the input length. -/
def parseLvl : Nat → Lvl → List SExpr → List Char → Option (SExpr × List Char)
  | 0, _, _, _ => none
  | fuel + 1, .atomE, _, s =>
      match parseTermAfterWs (skipWs s) with
      | some r => some r
      | none =>
          match skipWs s with
          | '(' :: rest =>
              match parseLvl fuel .orE [] rest with
              | some (e, rem) =>
                  (match skipWs rem with
                   | ')' :: rem2 => some (e, rem2)
                   | _ => none)
              | none => none
          | _ => none
  | fuel + 1, .notE, _, s =>
      match parseLit ['n', 'o', 't'] s with
      | some rest =>
          match parseLvl fuel .notE [] rest with
          | some (e, rem) => some (.notop e, rem)
          | none => parseLvl fuel .atomE [] s
      | none => parseLvl fuel .atomE [] s
  | fuel + 1, .andE, _, s =>
      match parseLvl fuel .notE [] s with
      | some (e, rem) => parseLvl fuel .andCont [e] rem
      | none => none
  | fuel + 1, .andCont, acc, s =>
      match parseLit ['a', 'n', 'd'] s with
      | some rest =>
          match parseLvl fuel .notE [] rest with
          | some (e, rem) => parseLvl fuel .andCont (acc ++ [e]) rem
          | none => finishBin "and" acc s
      | none => finishBin "and" acc s
  | fuel + 1, .orE, _, s =>
      match parseLvl fuel .andE [] s with
      | some (e, rem) => parseLvl fuel .orCont [e] rem
      | none => none
  | fuel + 1, .orCont, acc, s =>
      match parseLit ['o', 'r'] s with
      | some rest =>
          match parseLvl fuel .andE [] rest with
          | some (e, rem) => parseLvl fuel .orCont (acc ++ [e]) rem
          | none => finishBin "or" acc s
      | none => finishBin "or" acc s

/-- `search_expr.parseString(expr, parseAll=True)`: the whole input (up to
trailing whitespace) must be consumed. -/
def parseFull (s : List Char) : Option SExpr :=
  match parseLvl (10 * s.length + 10) Lvl.orE [] s with
  | some (e, rem) => if (skipWs rem).isEmpty then some e else none
  | none => none

/-- cli.py:174–191 `parse_search_expression`: comma → `" OR"`, then the
case-insensitive word-boundary rewrites of `AND`/`OR`/`NOT` to lowercase,
then the `infixNotation` grammar with `parseAll=True`.  `none` models a
`ParseException`, on which the program prints the error and calls
`exit(1)`. -/
def parse_search_expression (expr : String) : Option SExpr :=
  let s1 := replaceComma expr.data
  let s2 := subWordCI ['A', 'N', 'D'] ['a', 'n', 'd'] s1
  let s3 := subWordCI ['O', 'R'] ['o', 'r'] s2
  let s4 := subWordCI ['N', 'O', 'T'] ['n', 'o', 't'] s3
  parseFull s4

/-- Python `identifier in seen` for the `seen` set: membership by `==`. -/
def seenMem (seen : List JValue) (v : JValue) : Bool := seen.any (pyEqVal v)

/-- cli.py:366/385 `not search_tree or search_tree.evaluate(obj)`: with no
expression (`search_tree is None`) every record passes. -/
def evalOpt (tree : Option SExpr) (obj : Record) : Bool :=
  match tree with
  | none => true
  | some t => t.evaluate obj

/-- cli.py:363–368 / 382–387, the de-duplication + filter loop of `main`:
a record is appended iff its identity is truthy, not yet seen, and the
expression (if any) evaluates true on it; the identity is added to `seen`
only inside that same branch, i.e. only on an actual append. -/
def dedupGo (tree : Option SExpr) : List Record → List JValue → List Record
  | [], _ => []
  | obj :: rest, seen =>
      if (identifier obj).truthy && !seenMem seen (identifier obj) then
        if evalOpt tree obj then
          obj :: dedupGo tree rest (identifier obj :: seen)
        else dedupGo tree rest seen
      else dedupGo tree rest seen

/-- The full de-duplication pipeline over one data list, starting from the
fresh empty `seen` set of cli.py:362/381. -/
def dedupFilter (tree : Option SExpr) (data : List Record) : List Record :=
  dedupGo tree data []

/-- The state of the explicit `--file` input as `main` observes it:
the path may not exist (cli.py:346), `open` may raise an uncaught `OSError`
(cli.py:171), `json.load` may raise the caught `JSONDecodeError`
(cli.py:351), the document may parse but not be a list (cli.py:354), or it
is a list of records. -/
inductive FileInput where
  | missing
  | unreadable
  | malformedJson
  | notAList
  | list (data : List Record)
deriving DecidableEq

/-- cli.py:343: the four result buckets of `all_matches`; an append under
any other key (e.g. `"unknown"`) raises an uncaught `KeyError`. -/
def knownCategories : List String := ["equipment", "starship_trait", "doff", "personal_trait"]

/-- How the `--file` branch of `main` ends.  `fileNotFound`, `jsonError`,
`notAListError` and `typeMismatch` are the `print` + `return` paths
(cli.py:346–360); `indexError` is the uncaught `IndexError` of `data[0]` on
an empty list (cli.py:357); `parseError` is `exit(1)` from
`parse_search_expression` (cli.py:191); `keyError` is the uncaught
`KeyError` when the first append targets `all_matches[inferred_type]` with
an unknown category (cli.py:367); `ok` carries the detected category and
the matched, de-duplicated records. -/
inductive FileOutcome where
  | fileNotFound
  | uncaughtOSError
  | jsonError
  | notAListError
  | indexError
  | typeMismatch (inferred : String)
  | parseError
  | keyError
  | ok (inferred : String) (found : List Record)
deriving DecidableEq

/-- Python `==` between a list of strings and a string: always `False`.
This embeds `args.search_type != inferred_type` at cli.py:358, where
`args.search_type` is the LIST produced by `type=lambda s: s.split(',')`
(cli.py:294) while `inferred_type` is a string. -/
def pyEqListStr (_ : List String) (_ : String) : Bool := false

/-- Python truthiness of `args.search_type` (`None` or a list). -/
def optListTruthy : Option (List String) → Bool
  | none => false
  | some l => !l.isEmpty

/-- Python truthiness of `args.search` (`None` or a string). -/
def optStrTruthy : Option String → Bool
  | none => false
  | some s => s ≠ ""

/-- Package the search/dedup result of the `--file` loop: if the detected
category is not one of the four buckets and at least one record is
appended, the first `all_matches[inferred_type].append` raises `KeyError`. -/
def finishFile (inferred : String) (res : List Record) : FileOutcome :=
  if !knownCategories.contains inferred && !res.isEmpty then .keyError
  else .ok inferred res

/-- cli.py:345–368: the `--file` branch of `main` (reached when `args.file`
is set and the earlier flag checks passed), from the existence check to the
filled result bucket. -/
def runFileBranch (file : FileInput) (search_type : Option (List String))
    (search : Option String) : FileOutcome :=
  match file with
  | .missing => .fileNotFound
  | .unreadable => .uncaughtOSError
  | .malformedJson => .jsonError
  | .notAList => .notAListError
  | .list [] => .indexError
  | .list (first :: rest) =>
      let inferred := detect_format first
      if optListTruthy search_type && !pyEqListStr (search_type.getD []) inferred then
        .typeMismatch inferred
      else if optStrTruthy search then
        match parse_search_expression (search.getD "") with
        | none => .parseError
        | some tree => finishFile inferred (dedupFilter (some tree) (first :: rest))
      else finishFile inferred (dedupFilter none (first :: rest))

/-- The process exit status each outcome produces: the `print` + `return`
paths let `main` return normally (status 0), `exit(1)` gives 1, and an
uncaught Python exception terminates the interpreter with status 1. -/
def FileOutcome.exitCode : FileOutcome → Nat
  | .fileNotFound => 0
  | .uncaughtOSError => 1
  | .jsonError => 0
  | .notAListError => 0
  | .indexError => 1
  | .typeMismatch _ => 0
  | .parseError => 1
  | .keyError => 1
  | .ok _ _ => 0

/-! ## Helper lemmas -/

/-- Python `==` is reflexive on the JSON primitive values. -/
theorem pyEqVal_refl (v : JValue) : pyEqVal v v = true := by
  cases v <;> simp [pyEqVal]

/-- `hasKey` agrees with membership of the key in the record's key list. -/
theorem hasKey_iff (obj : Record) (k : String) :
    hasKey obj k = true ↔ k ∈ obj.map Prod.fst := by
  simp [hasKey, List.any_eq_true, List.mem_map]

/-- A record in the output of the de-duplication loop never carries an
identity that was already in `seen` when the loop started. -/
theorem dedup_output_not_seen (tree : Option SExpr) :
    ∀ (data : List Record) (seen : List JValue) (r : Record),
      r ∈ dedupGo tree data seen → seenMem seen (identifier r) = false := by
  intro data
  induction data with
  | nil => intro seen r h; simp [dedupGo] at h
  | cons obj rest ih =>
      intro seen r h
      simp only [dedupGo] at h
      split at h
      · rename_i hc
        split at h
        · rcases List.mem_cons.mp h with h2 | h2
          · subst h2
            simp only [Bool.and_eq_true] at hc
            have h3 := hc.2
            cases hs : seenMem seen (identifier r)
            · rfl
            · rw [hs] at h3; simp at h3
          · have h4 := ih _ _ h2
            simp only [seenMem, List.any_cons, Bool.or_eq_false_iff] at h4
            exact h4.2
        · exact ih _ _ h
      · exact ih _ _ h

/-! ## Claim C1 -/

/-- Claim C1 counterexample: a record lacking all three identity fields
(`name`, `doff_specialization`, `_pageName`) does NOT appear in the result
set even with no search expression — `main` requires `if identifier` to be
truthy before appending (cli.py:365/384), so the claim that such a record
"is always considered unique ... and appears in the category result set"
is false. -/
theorem C1_counterexample :
    dedupFilter none [[("rarity", JValue.jstr "Rare")]] = [] := rfl

/-- Claim C1 (amended): a record whose identity (first Python-truthy of
`name`, `doff_specialization`, `_pageName`) is falsy — in particular a
record lacking all three fields — is never appended to the result set at
all, regardless of the search expression: every record in the output of
the de-duplication loop has a truthy identity. -/
theorem C1_identityless_dropped (tree : Option SExpr) :
    ∀ (data : List Record) (seen : List JValue) (r : Record),
      r ∈ dedupGo tree data seen → (identifier r).truthy = true := by
  intro data
  induction data with
  | nil => intro seen r h; simp [dedupGo] at h
  | cons obj rest ih =>
      intro seen r h
      simp only [dedupGo] at h
      split at h
      · rename_i hc
        split at h
        · rcases List.mem_cons.mp h with h2 | h2
          · subst h2
            simp only [Bool.and_eq_true] at hc
            exact hc.1
          · exact ih _ _ h2
        · exact ih _ _ h
      · exact ih _ _ h

/-- Claim C1 witness: a record with a truthy `name` is appended (the
membership hypothesis is satisfiable), and the theorem applies to it. -/
theorem C1_identityless_dropped_witness :
    (identifier [("name", JValue.jstr "A")]).truthy = true :=
  C1_identityless_dropped none [[("name", JValue.jstr "A")]] []
    [("name", JValue.jstr "A")] (by decide)

/-! ## Claim C4 -/

/-- Claim C4: in the de-duplication loop, "seen" is recorded only at the
point of an actual append.  If `r1` fails the expression and a later `r2`
with the same identity passes it, then `r2` IS appended (the result starts
with `r2`); and once `r2` is appended, every later record sharing that
identity is dropped: nothing in the remainder of the result compares equal
to `r2`'s identity. -/
theorem C4_seen_marked_on_append (tree : SExpr) (r1 r2 : Record) (rest : List Record)
    (hid : identifier r2 = identifier r1)
    (ht : (identifier r1).truthy = true)
    (e1 : SExpr.evaluate tree r1 = false)
    (e2 : SExpr.evaluate tree r2 = true) :
    dedupFilter (some tree) (r1 :: r2 :: rest) =
      r2 :: dedupGo (some tree) rest [identifier r2] ∧
    ∀ r3 ∈ dedupGo (some tree) rest [identifier r2],
      pyEqVal (identifier r3) (identifier r2) = false := by
  constructor
  · simp [dedupFilter, dedupGo, seenMem, evalOpt, hid, ht, e1, e2]
  · intro r3 h3
    have h4 := dedup_output_not_seen (some tree) rest [identifier r2] r3 h3
    simp only [seenMem, List.any_cons, List.any_nil, Bool.or_false] at h4
    exact h4

/-- Claim C4 witness: three records named `A`; the first does not contain
`x`, the second and third do.  The pipeline keeps exactly the second. -/
theorem C4_seen_marked_on_append_witness :
    dedupFilter (some (SExpr.term "x"))
      [[("name", JValue.jstr "A"), ("v", JValue.jstr "q")],
       [("name", JValue.jstr "A"), ("v", JValue.jstr "x1")],
       [("name", JValue.jstr "A"), ("v", JValue.jstr "x2")]] =
      [("name", JValue.jstr "A"), ("v", JValue.jstr "x1")] ::
        dedupGo (some (SExpr.term "x"))
          [[("name", JValue.jstr "A"), ("v", JValue.jstr "x2")]]
          [identifier [("name", JValue.jstr "A"), ("v", JValue.jstr "x1")]] :=
  (C4_seen_marked_on_append (SExpr.term "x")
    [("name", JValue.jstr "A"), ("v", JValue.jstr "q")]
    [("name", JValue.jstr "A"), ("v", JValue.jstr "x1")]
    [[("name", JValue.jstr "A"), ("v", JValue.jstr "x2")]]
    (by decide) (by decide) (by decide) (by decide)).1

/-! ## Claim C5 -/

/-- Claim C5 counterexample: a record whose `name` is the non-null EMPTY
string does fall through — its identity is taken from
`doff_specialization`, not `""`, because Python `or` selects by
truthiness, not by non-nullness. -/
theorem C5_counterexample :
    identifier [("name", JValue.jstr ""), ("doff_specialization", JValue.jstr "X")] =
      JValue.jstr "X" := rfl

/-- Claim C5 (amended): the de-duplication identity is the first
Python-TRUTHY value (non-null, non-empty-string, non-zero, non-`False`)
among `name`, `doff_specialization`, `_pageName` in that priority order;
a falsy value — including the non-null empty string — falls through to the
next field. -/
theorem C5_identity_first_truthy (r : Record) :
    ((pyGet r "name").truthy = true → identifier r = pyGet r "name") ∧
    ((pyGet r "name").truthy = false → (pyGet r "doff_specialization").truthy = true →
      identifier r = pyGet r "doff_specialization") ∧
    ((pyGet r "name").truthy = false → (pyGet r "doff_specialization").truthy = false →
      identifier r = pyGet r "_pageName") := by
  refine ⟨fun h1 => ?_, fun h1 h2 => ?_, fun h1 h2 => ?_⟩ <;>
    simp [identifier, pyOr, h1]
  · simp [h2]
  · simp [h2]

/-- Claim C5 witness: a record with empty `name` and no
`doff_specialization` takes its identity from `_pageName`. -/
theorem C5_identity_first_truthy_witness :
    identifier [("name", JValue.jstr ""), ("_pageName", JValue.jstr "P")] =
      pyGet [("name", JValue.jstr ""), ("_pageName", JValue.jstr "P")] "_pageName" :=
  (C5_identity_first_truthy _).2.2 (by decide) (by decide)

/-! ## Claim C2 -/

/-- Claim C2 counterexample: `detect_format` uses Python `str.startswith`,
which is CASE-SENSITIVE; a record whose only field is `Head1` is classified
`"unknown"`, not `"equipment"`, refuting the claimed case-insensitive
prefix comparison. -/
theorem C2_counterexample :
    detect_format [("Head1", JValue.jstr "x")] ≠ "equipment" := by decide

/-- Claim C2 (amended): for a record matching none of the earlier rules
(no `doff_specialization`; none of `basic`/`detailed`/`obtained`; not both
`chartype` and `environment`) that has a field name beginning with `head`,
`subhead` or `text` under CASE-SENSITIVE prefix comparison, `detect_format`
returns `"equipment"`. -/
theorem C2_case_sensitive_equipment (obj : Record)
    (h1 : "doff_specialization" ∉ obj.map Prod.fst)
    (h2 : "basic" ∉ obj.map Prod.fst)
    (h3 : "detailed" ∉ obj.map Prod.fst)
    (h4 : "obtained" ∉ obj.map Prod.fst)
    (h5 : ¬("chartype" ∈ obj.map Prod.fst ∧ "environment" ∈ obj.map Prod.fst))
    (h6 : ∃ k ∈ obj.map Prod.fst,
        strStartsWith k "head" = true ∨ strStartsWith k "text" = true ∨
        strStartsWith k "subhead" = true) :
    detect_format obj = "equipment" := by
  have key_false : ∀ k : String, k ∉ obj.map Prod.fst → hasKey obj k = false := by
    intro k hk
    cases hEq : hasKey obj k
    · rfl
    · exact absurd ((hasKey_iff _ _).mp hEq) hk
  have k1 := key_false _ h1
  have k2 := key_false _ h2
  have k3 := key_false _ h3
  have k4 := key_false _ h4
  have k5 : (hasKey obj "chartype" && hasKey obj "environment") = false := by
    cases hb : (hasKey obj "chartype" && hasKey obj "environment")
    · rfl
    · simp only [Bool.and_eq_true] at hb
      exact absurd ⟨(hasKey_iff _ _).mp hb.1, (hasKey_iff _ _).mp hb.2⟩ h5
  have k6 : (obj.any fun kv =>
      strStartsWith kv.1 "head" || strStartsWith kv.1 "text" ||
        strStartsWith kv.1 "subhead") = true := by
    obtain ⟨k, hk, hpre⟩ := h6
    obtain ⟨kv, hkv, hfst⟩ := List.mem_map.mp hk
    refine List.any_eq_true.mpr ⟨kv, hkv, ?_⟩
    rw [hfst]
    rcases hpre with h | h | h <;> simp [h]
  simp [detect_format, k1, k2, k3, k4, k5, k6]

/-- Claim C2 witness: the lowercase singleton record `{head1: null}` meets
all the hypotheses and classifies as equipment. -/
theorem C2_case_sensitive_equipment_witness :
    detect_format [("head1", JValue.jnull)] = "equipment" :=
  C2_case_sensitive_equipment [("head1", JValue.jnull)]
    (by decide) (by decide) (by decide) (by decide) (by decide) (by decide)

/-! ## Claim C3 -/

/-- Claim C3 counterexample: a malformed explicit `--file` and a detected
category mismatching `--search-type` both end in `print` + `return` —
`main` returns normally and the process exit status is 0, not non-zero as
claimed. -/
theorem C3_counterexample :
    (runFileBranch FileInput.malformedJson none (some "mk")).exitCode = 0 ∧
    (runFileBranch (FileInput.list [[("head1", JValue.jstr "x")]])
      (some ["equipment"]) (some "mk")).exitCode = 0 :=
  ⟨rfl, rfl⟩

/-- Claim C3 (amended): malformed JSON in the explicit file, and a category
mismatch with the user filter, print an error and return gracefully with
exit status 0; a genuinely unreadable file (an `OSError` from `open`, which
nothing catches) crashes the interpreter with a non-zero status. -/
theorem C3_graceful_return (st : Option (List String)) (s : Option String)
    (f : FileInput) (i : String)
    (h : runFileBranch f st s = FileOutcome.typeMismatch i) :
    (runFileBranch FileInput.malformedJson st s).exitCode = 0 ∧
    (runFileBranch f st s).exitCode = 0 ∧
    (runFileBranch FileInput.unreadable st s).exitCode = 1 := by
  refine ⟨rfl, ?_, rfl⟩
  rw [h]
  rfl

/-- Claim C3 witness: concrete inputs on which the mismatch hypothesis
holds. -/
theorem C3_graceful_return_witness :
    (runFileBranch FileInput.malformedJson (some ["equipment"]) none).exitCode = 0 ∧
    (runFileBranch (FileInput.list [[("head1", JValue.jnull)]])
      (some ["equipment"]) none).exitCode = 0 ∧
    (runFileBranch FileInput.unreadable (some ["equipment"]) none).exitCode = 1 :=
  C3_graceful_return (some ["equipment"]) none
    (FileInput.list [[("head1", JValue.jnull)]]) "equipment" (by decide)

/-! ## Claim C6 -/

/-- Claim C6 (code bug): cli.py:358 compares `args.search_type` — a LIST,
produced by `type=lambda s: s.split(',')` — against the string
`inferred_type` with `!=`; a Python list never equals a string, so the
"category mismatch" error fires even when the specified type equals the
detected category.  Here the file's first record detects as `equipment`
and `--search-type equipment` was given, yet the branch returns the
mismatch error instead of proceeding to search. -/
theorem C6_list_vs_string_always_mismatch :
    runFileBranch
      (FileInput.list [[("head1", JValue.jstr "x"), ("name", JValue.jstr "A")]])
      (some ["equipment"]) (some "mk") = FileOutcome.typeMismatch "equipment" := rfl

/-! ## Claim C7 -/

/-- Claim C7: on the record `{"name": "Phaser Mk XII", "rarity": "Rare"}`
the compiled expression `mk and rare` evaluates to true, and the compiled
expression `mk and not rare` evaluates to false. -/
theorem C7_phaser_scenario :
    (parse_search_expression "mk and rare").map
      (fun t => t.evaluate
        [("name", JValue.jstr "Phaser Mk XII"), ("rarity", JValue.jstr "Rare")]) =
      some true ∧
    (parse_search_expression "mk and not rare").map
      (fun t => t.evaluate
        [("name", JValue.jstr "Phaser Mk XII"), ("rarity", JValue.jstr "Rare")]) =
      some false :=
  ⟨rfl, rfl⟩

/-! ## Claim C8 -/

/-- Claim C8 counterexample: `"mk,xii"` and `"mk OR xii"` do NOT compile to
identical predicates — the comma is replaced by `" OR"` with no trailing
space, producing `mk ORxii`, in which `ORxii` has no word boundary, is not
lowercased, and is not an operator; the grammar then fails to consume the
input and `parse_search_expression` raises (exit 1), while `"mk OR xii"`
compiles fine. -/
theorem C8_counterexample :
    parse_search_expression "mk,xii" = none ∧
    (parse_search_expression "mk OR xii").isSome = true :=
  ⟨rfl, rfl⟩

/-- Claim C8 (amended): with whitespace after the comma the shorthand does
work: `"mk, xii"` and `"mk OR xii"` preprocess to the same text, compile
successfully, and evaluate identically on every record. -/
theorem C8_comma_space_equiv (obj : Record) :
    (parse_search_expression "mk, xii").isSome = true ∧
    (parse_search_expression "mk, xii").map (fun t => t.evaluate obj) =
      (parse_search_expression "mk OR xii").map (fun t => t.evaluate obj) := by
  have h : parse_search_expression "mk, xii" = parse_search_expression "mk OR xii" := rfl
  exact ⟨by rw [h]; rfl, by rw [h]⟩

/-! ## Claim C9 -/

/-- Claim C9: an explicit `--file` holding the well-formed JSON document
`[]` passes the `isinstance(data, list)` check and then `main` indexes
`data[0]` unguarded (cli.py:357), so the run ends in an uncaught
`IndexError` rather than a graceful abort or empty output — whatever the
other flags were. -/
theorem C9_empty_file_index_error (st : Option (List String)) (s : Option String) :
    runFileBranch (FileInput.list []) st s = FileOutcome.indexError := rfl

/-! ## Claim C10 -/

/-- Claim C10 counterexample: compiling the expression `"a,b"` does not
yield a Term with text `a OR b`: the comma is replaced by `" OR"` with no
trailing space, so the quoted content becomes `a ORb` (and the keyword
lowering does not touch `ORb`, which has no word boundary). -/
theorem C10_counterexample :
    parse_search_expression "\"a,b\"" ≠ some (SExpr.term "a OR b") := by
  intro h
  have h1 : parse_search_expression "\"a,b\"" = some (SExpr.term "a ORb") := rfl
  rw [h1] at h
  injection h with h2
  injection h2 with h3
  exact absurd h3 (by decide)

/-- Claim C10 (amended): the comma replacement is applied to the raw
expression text before tokenization, including inside double-quoted terms:
compiling `"a,b"` yields the single Term `a ORb`, and that term does not
match a record whose field value is the literal `a,b` — a quoted term can
never match a field value containing a comma as written. -/
theorem C10_quoted_comma_rewritten :
    parse_search_expression "\"a,b\"" = some (SExpr.term "a ORb") ∧
    SExpr.evaluate (SExpr.term "a ORb") [("f", JValue.jstr "a,b")] = false :=
  ⟨rfl, rfl⟩

end StoCargo
